import Mathlib

/-!
Shallow embedding of the peer connection lifecycle and matchmaking core of
`src/src/hooks/useHumanChat.ts` (the most complete version: the one holding a
single main connection in `mainConnRef` and a keyed map of direct connections
in `directConnsRef`).  Connections are modelled with an explicit object
identity `cid`, React `useState`/`useRef` cells become fields of an explicit
`ChatState` record, and every handler becomes a pure function from state to
state paired with a list of externally visible effects (wire sends, connection
closes, presence tracking, persistence calls).  Non-deterministic inputs of the
runtime (generated message ids, `Date.now()`, the result of `peer.connect`)
are threaded as explicit parameters.
-/

namespace Chat

/-- The `ChatMode` enum of `src/src/types.ts`. -/
inductive ChatMode
  | IDLE | SEARCHING | WAITING | CONNECTED | DISCONNECTED | ERROR
  deriving DecidableEq, Repr

/-- Sender of a message: the string union `'me' | 'stranger' | 'system'`. -/
inductive Sender
  | me | stranger | system
  deriving DecidableEq, Repr

/-- The `MessageType` union `'text' | 'image' | 'audio'`. -/
inductive MessageType
  | text | image | audio
  deriving DecidableEq, Repr

/-- Delivery status of an outgoing message (`'sent' | 'seen'`). -/
inductive MsgStatus
  | sent | seen
  deriving DecidableEq, Repr

/-- A reaction entry `{ emoji, sender }` from `src/src/types.ts`. -/
structure Reaction where
  emoji : String
  sender : Sender
  deriving DecidableEq, Repr

/-- The `UserProfile` record of `src/src/types.ts`. -/
structure UserProfile where
  username : String
  age : String
  gender : String
  interests : List String
  location : String
  deriving DecidableEq, Repr

/-- The `Message` record of `src/src/types.ts` (fields the core touches). -/
structure Message where
  id : String
  text : Option String := none
  fileData : Option String := none
  type : MessageType
  sender : Sender
  timestamp : Nat
  reactions : List Reaction := []
  isEdited : Bool := false
  status : Option MsgStatus := none
  deriving DecidableEq, Repr

/-- Presence status union `'waiting' | 'paired' | 'busy'`. -/
inductive PresenceStatus
  | waiting | paired | busy
  deriving DecidableEq, Repr

/-- The `PresenceState` record published on the lobby channel. -/
structure PresenceState where
  peerId : String
  status : PresenceStatus
  timestamp : Nat
  profile : Option UserProfile := none
  deriving DecidableEq, Repr

/-- The wire envelope `PeerData`: a closed tagged union, one variant per
`type` tag the handler recognises, plus `unknown` for any other tag string
(the dynamic payload field is given the concrete type each branch reads). -/
inductive PeerData
  | message (payload : String) (dataType : Option MessageType) (id : Option String)
  | seen (messageId : Option String)
  | reaction (payload : String) (messageId : Option String)
  | edit_message (payload : String) (messageId : Option String)
  | typing (payload : Bool)
  | recording (payload : Bool)
  | profile (payload : UserProfile)
  | profile_update (payload : UserProfile)
  | vanish_mode (payload : Bool)
  | friend_request (payload : UserProfile)
  | friend_accept (payload : UserProfile)
  | disconnect
  | unknown (tag : String)
  deriving DecidableEq, Repr

/-- A `DataConnection`: `cid` is the object identity (reference equality
`conn === mainConnRef.current` is `cid` equality), `peer` the remote peer id,
`isOpen` the transport's `open` flag. -/
structure DataConnection where
  cid : Nat
  peer : String
  isOpen : Bool
  deriving DecidableEq, Repr

/-- Dial metadata `{ type: 'random' | 'direct' }`. -/
inductive ConnType
  | random | direct
  deriving DecidableEq, Repr

/-- The `DirectMessageEvent` handed to the social-hub store. -/
structure DirectMessageEvent where
  peerId : String
  message : Message
  deriving DecidableEq, Repr

/-- The `incomingReaction` event record (sender is always the stranger). -/
structure IncomingReaction where
  messageId : String
  emoji : String
  deriving DecidableEq, Repr

/-- The `FriendRequest` record `{ profile, peerId }`. -/
structure FriendRequest where
  profile : UserProfile
  peerId : String
  deriving DecidableEq, Repr

/-- Externally visible effects of a handler: wire sends, connection closes,
presence-channel operations and persistence calls. -/
inductive Effect
  | send (cid : Nat) (data : PeerData)
  | closeConn (cid : Nat)
  | untrackChannel
  | removeChannel
  | trackBusy (peerId : String)
  | saveRecent (profile : UserProfile) (peer : String)
  | saveFriend (profile : UserProfile) (peer : String)
  deriving DecidableEq, Repr

/-- The state of the hook: every `useState` cell and every `useRef` cell of
`useHumanChat` that the modelled handlers read or write.  Timer refs are
modelled as booleans recording whether the timer is armed. -/
structure ChatState where
  messages : List Message
  status : ChatMode
  partnerTyping : Bool
  partnerRecording : Bool
  partnerProfile : Option UserProfile
  remoteVanishMode : Option Bool
  onlineUsers : List PresenceState
  incomingDirectMessage : Option DirectMessageEvent
  incomingReaction : Option IncomingReaction
  incomingFriendRequest : Option FriendRequest
  mainConn : Option DataConnection
  directConns : List (String × DataConnection)
  isMatchmaker : Bool
  timeoutArmed : Bool
  typingTimer : Bool
  recordingTimer : Bool
  channelJoined : Bool
  errorMsg : Option String
  deriving DecidableEq, Repr

/-- The initial hook state (all cells at their `useState`/`useRef` initial
values, lobby not yet joined). -/
def emptyState : ChatState :=
  { messages := []
    status := .IDLE
    partnerTyping := false
    partnerRecording := false
    partnerProfile := none
    remoteVanishMode := none
    onlineUsers := []
    incomingDirectMessage := none
    incomingReaction := none
    incomingFriendRequest := none
    mainConn := none
    directConns := []
    isMatchmaker := false
    timeoutArmed := false
    typingTimer := false
    recordingTimer := false
    channelJoined := false
    errorMsg := none }

/-- Reference comparison `conn === mainConnRef.current`. -/
def isMainConn (st : ChatState) (conn : DataConnection) : Bool :=
  match st.mainConn with
  | some m => m.cid == conn.cid
  | none => false

/-- The guard expression `mainConnRef.current?.open`. -/
def mainOpen (st : ChatState) : Bool :=
  match st.mainConn with
  | some m => m.isOpen
  | none => false

/-- `Map.set` on the direct-connection map (`directConnsRef.current.set`). -/
def mapSet (k : String) (v : DataConnection) :
    List (String × DataConnection) → List (String × DataConnection)
  | [] => [(k, v)]
  | (k', v') :: rest =>
      if k' = k then (k, v) :: rest else (k', v') :: mapSet k v rest

/-- `Map.delete` on the direct-connection map (`directConnsRef.current.delete`). -/
def mapDelete (k : String) :
    List (String × DataConnection) → List (String × DataConnection)
  | [] => []
  | (k', v') :: rest =>
      if k' = k then rest else (k', v') :: mapDelete k rest

/-- Modelled from the spec: the system greeting `INITIAL_GREETING` lives in
`src/constants.ts`, which is absent from the sources; the spec describes it as
the system message with id `init-1` seeding the list on main open. -/
def INITIAL_GREETING : Message :=
  { id := "init-1"
    text := some "You are now chatting with a stranger. Say hello!"
    type := .text
    sender := .system
    timestamp := 0 }

/-- Modelled from the spec: the `STRANGER_DISCONNECTED_MSG` system message of
`src/constants.ts`, absent from the sources; the spec describes it as a system
"stranger disconnected" message appended on main close. -/
def STRANGER_DISCONNECTED_MSG : Message :=
  { id := "sys-disconnect"
    text := some "Stranger has disconnected."
    type := .text
    sender := .system
    timestamp := 0 }

/-- Construction of the incoming `Message` in the `data.type === 'message'`
branch of `handleIncomingData`: `msgId` is `data.id` or a generated fallback,
the content kind is `data.dataType || 'text'`, and the payload lands in `text`
or `fileData` depending on the declared kind. -/
def mkIncomingMessage (payload : String) (dataType : Option MessageType)
    (msgId : String) (now : Nat) : Message :=
  { id := msgId
    sender := .stranger
    timestamp := now
    type := dataType.getD .text
    reactions := []
    text := if dataType ≠ some .image ∧ dataType ≠ some .audio
            then some payload else none
    fileData := if dataType = some .image ∨ dataType = some .audio
                then some payload else none }

/-- Per-message part of the `data.type === 'reaction'` branch: on the message
with the given id, append `{emoji, sender: 'stranger'}` unless an entry with
the same sender and emoji is already present. -/
def strangerReactionStep (p m : String) (msg : Message) : Message :=
  if msg.id = m then
    if msg.reactions.any (fun r => r.sender == Sender.stranger && r.emoji == p)
    then msg
    else { msg with reactions := msg.reactions ++ [⟨p, .stranger⟩] }
  else msg

/-- The `setMessages(prev => prev.map(...))` update of the reaction branch. -/
def applyStrangerReaction (p m : String) (msgs : List Message) : List Message :=
  msgs.map (strangerReactionStep p m)

/-- Per-message part of the `data.type === 'edit_message'` branch: replace the
text and set `isEdited` on a stranger text message whose id matches `mid` —
or on any stranger text message when `mid` is absent. -/
def strangerEditStep (payload : String) (mid : Option String)
    (msg : Message) : Message :=
  if msg.sender == Sender.stranger && msg.type == MessageType.text
     && (mid.isNone || mid == some msg.id)
  then { msg with text := some payload, isEdited := true }
  else msg

/-- The `setMessages(prev => prev.map(...))` update of the edit branch. -/
def applyStrangerEdit (payload : String) (mid : Option String)
    (msgs : List Message) : List Message :=
  msgs.map (strangerEditStep payload mid)

/-- Per-message part of the local `editMessage` update: replace `text` and set
`isEdited` on the message with the given id. -/
def localEditStep (messageId newText : String) (msg : Message) : Message :=
  if msg.id = messageId
  then { msg with text := some newText, isEdited := true }
  else msg

/-- The data handler `handleIncomingData(data, conn)` (first version, lines
151-271): classifies the payload by tag, keyed by whether `conn` is the main
connection.  `freshId` models the generated fallback message id and `now`
models `Date.now()`. -/
def handleIncomingData (data : PeerData) (conn : DataConnection)
    (freshId : String) (now : Nat) (st : ChatState) : ChatState × List Effect :=
  let isMain := isMainConn st conn
  match data with
  | .message payload dataType mid =>
      let msgId := mid.getD freshId
      let newMessage := mkIncomingMessage payload dataType msgId now
      if isMain then
        ({ st with partnerTyping := false
                   partnerRecording := false
                   typingTimer := false
                   recordingTimer := false
                   messages := st.messages ++ [newMessage] },
         [Effect.send conn.cid (.seen (some msgId))])
      else
        ({ st with incomingDirectMessage := some ⟨conn.peer, newMessage⟩ }, [])
  | .seen mid =>
      match mid with
      | some m =>
          if isMain then
            ({ st with messages := st.messages.map fun msg =>
                  if msg.id = m then { msg with status := some .seen } else msg },
             [])
          else (st, [])
      | none => (st, [])
  | .reaction payload mid =>
      match mid with
      | some m =>
          let st1 := { st with incomingReaction := some ⟨m, payload⟩ }
          if isMain then
            ({ st1 with messages := applyStrangerReaction payload m st1.messages }, [])
          else (st1, [])
      | none => (st, [])
  | .edit_message payload mid =>
      if isMain then
        ({ st with messages := applyStrangerEdit payload mid st.messages }, [])
      else (st, [])
  | .typing p =>
      if isMain then
        ({ st with partnerTyping := p, typingTimer := p }, [])
      else (st, [])
  | .recording p =>
      if isMain then
        ({ st with partnerRecording := p, recordingTimer := p }, [])
      else (st, [])
  | .profile p =>
      if isMain then
        let greeting := "Connected with " ++ p.username ++ ". Say hello!"
        ({ st with partnerProfile := some p
                   messages := st.messages.map fun msg =>
                     if msg.id = "init-1"
                     then { msg with text := some greeting }
                     else msg },
         [Effect.saveRecent p conn.peer])
      else
        (st, [Effect.saveRecent p conn.peer])
  | .vanish_mode p =>
      if isMain then ({ st with remoteVanishMode := some p }, []) else (st, [])
  | .friend_request p =>
      ({ st with incomingFriendRequest := some ⟨p, conn.peer⟩ }, [])
  | .friend_accept p =>
      (st, [Effect.saveFriend p conn.peer])
  | .disconnect =>
      if isMain then
        ({ st with status := .DISCONNECTED
                   messages := st.messages ++ [STRANGER_DISCONNECTED_MSG]
                   mainConn := none },
         match st.mainConn with
         | some m => [Effect.closeConn m.cid]
         | none => [])
      else
        ({ st with directConns := mapDelete conn.peer st.directConns }, [])
  | .profile_update _ => (st, [])
  | .unknown _ => (st, [])

/-- `cleanupMain` (lines 122-148): untrack and remove the lobby channel, close
and clear the main connection, cancel the safety and indicator timers, clear
the matchmaker flag and move to `DISCONNECTED`.  The direct-connection map is
not touched. -/
def cleanupMain (st : ChatState) : ChatState × List Effect :=
  let chanEffs := if st.channelJoined
                  then [Effect.untrackChannel, Effect.removeChannel] else []
  let connEffs := match st.mainConn with
                  | some m => [Effect.closeConn m.cid]
                  | none => []
  ({ st with channelJoined := false
             mainConn := none
             timeoutArmed := false
             isMatchmaker := false
             partnerTyping := false
             partnerRecording := false
             status := .DISCONNECTED
             typingTimer := false
             recordingTimer := false },
   chanEffs ++ connEffs)

/-- The registry part of `setupConnection` (lines 274-296): clear the pending
safety timer, then either install the connection in the main slot (role
`random`, or no metadata while this side is the matchmaker) — clearing the
matchmaker flag and re-tracking presence as busy — or put it in the direct map
keyed by the remote peer id. -/
def attachConnection (conn : DataConnection) (metadata : Option ConnType)
    (myPeerId : Option String) (st : ChatState) : ChatState × List Effect :=
  let st := { st with timeoutArmed := false }
  if metadata == some ConnType.random || (metadata.isNone && st.isMatchmaker) then
    let trackEffs := match myPeerId with
      | some pid => if st.channelJoined then [Effect.trackBusy pid] else []
      | none => []
    ({ st with mainConn := some conn, isMatchmaker := false }, trackEffs)
  else
    ({ st with directConns := mapSet conn.peer conn st.directConns }, [])

/-- The `conn.on('close')` handler installed by `setupConnection` (lines
311-318): a closing main connection in `CONNECTED` moves the session to
`DISCONNECTED` with a system message; any other close deletes the
connection's peer from the direct map. -/
def onConnClose (conn : DataConnection) (st : ChatState) : ChatState :=
  if isMainConn st conn && st.status == ChatMode.CONNECTED then
    { st with status := .DISCONNECTED
              messages := st.messages ++ [STRANGER_DISCONNECTED_MSG] }
  else
    { st with directConns := mapDelete conn.peer st.directConns }

/-- Stable insertion into a timestamp-sorted list (ties keep original order,
matching the stable `Array.prototype.sort` with comparator
`(a, b) => a.timestamp - b.timestamp`). -/
def insertByTimestamp (u : PresenceState) :
    List PresenceState → List PresenceState
  | [] => [u]
  | v :: vs =>
      if u.timestamp ≤ v.timestamp then u :: v :: vs
      else v :: insertByTimestamp u vs

/-- Sorting by ascending `timestamp` as in the snapshot handler. -/
def sortByTimestamp : List PresenceState → List PresenceState
  | [] => []
  | u :: us => insertByTimestamp u (sortByTimestamp us)

/-- Result of processing one presence snapshot: the new state, the peer id
passed to `peer.connect` when a dial was attempted, and the emitted effects. -/
structure SyncResult where
  state : ChatState
  dialed : Option String
  effects : List Effect
  deriving DecidableEq, Repr

/-- The `presence`/`sync` handler inside `joinLobby` (lines 395-441): refresh
`onlineUsers`, bail out when the matchmaker flag is set or the main connection
is open, otherwise sort the `waiting` records by timestamp and dial the oldest
one if it is not self, setting the flag before the dial, attaching the
resulting connection as `random` and arming the 5s safety timer; `newConn`
models the value returned by `peer.connect` (`none` when the dial call yields
no connection, which resets the flag). -/
def processSnapshot (myId : String) (snapshot : List PresenceState)
    (newConn : Option DataConnection) (st0 : ChatState) : SyncResult :=
  let st := { st0 with onlineUsers := snapshot }
  if st0.isMatchmaker || mainOpen st0 then ⟨st, none, []⟩
  else
    let sortedWaiters :=
      sortByTimestamp (snapshot.filter fun u => u.status == PresenceStatus.waiting)
    match sortedWaiters.head? with
    | some oldestWaiter =>
        if oldestWaiter.peerId ≠ myId then
          let st := { st with isMatchmaker := true }
          match newConn with
          | some conn =>
              let (st, effs) := attachConnection conn (some .random) (some myId) st
              ⟨{ st with timeoutArmed := true }, some oldestWaiter.peerId, effs⟩
          | none =>
              ⟨{ st with isMatchmaker := false }, some oldestWaiter.peerId, []⟩
        else ⟨st, none, []⟩
    | none => ⟨st, none, []⟩

/-- The safety-timeout callback armed by `joinLobby` (lines 426-433): only
when the matchmaker flag is still set and the main connection is not open does
it clear the flag and null the main slot. -/
def onSafetyTimeout (st : ChatState) : ChatState :=
  if st.isMatchmaker && !mainOpen st then
    { st with isMatchmaker := false, mainConn := none }
  else st

/-- `sendMessage` (lines 458-473): transmit on the wire only when a main
connection exists and the mode is `CONNECTED`; always append the optimistic
local copy with sender `me` and status `sent`.  `fid` models the freshly
generated id and `now` models `Date.now()`. -/
def sendMessage (txt : String) (fid : String) (now : Nat)
    (st : ChatState) : ChatState × List Effect :=
  let effs := match st.mainConn with
    | some m =>
        if st.status == ChatMode.CONNECTED
        then [Effect.send m.cid (.message txt (some .text) (some fid))] else []
    | none => []
  ({ st with messages := st.messages ++
      [{ id := fid
         text := some txt
         type := .text
         sender := .me
         timestamp := now
         reactions := []
         status := some .sent }] },
   effs)

/-- `sendImage` (lines 475-490), same shape with an image payload. -/
def sendImage (base64Image : String) (fid : String) (now : Nat)
    (st : ChatState) : ChatState × List Effect :=
  let effs := match st.mainConn with
    | some m =>
        if st.status == ChatMode.CONNECTED
        then [Effect.send m.cid (.message base64Image (some .image) (some fid))] else []
    | none => []
  ({ st with messages := st.messages ++
      [{ id := fid
         fileData := some base64Image
         type := .image
         sender := .me
         timestamp := now
         reactions := []
         status := some .sent }] },
   effs)

/-- `sendAudio` (lines 492-507), same shape with an audio payload. -/
def sendAudio (base64Audio : String) (fid : String) (now : Nat)
    (st : ChatState) : ChatState × List Effect :=
  let effs := match st.mainConn with
    | some m =>
        if st.status == ChatMode.CONNECTED
        then [Effect.send m.cid (.message base64Audio (some .audio) (some fid))] else []
    | none => []
  ({ st with messages := st.messages ++
      [{ id := fid
         fileData := some base64Audio
         type := .audio
         sender := .me
         timestamp := now
         reactions := []
         status := some .sent }] },
   effs)

/-- `sendReaction` (lines 509-520): append `{emoji, sender: 'me'}` to the
target message's reaction list (no duplicate check), then transmit when
connected. -/
def sendReaction (messageId : String) (emoji : String)
    (st : ChatState) : ChatState × List Effect :=
  let st1 := { st with messages := st.messages.map fun msg =>
      if msg.id = messageId
      then { msg with reactions := msg.reactions ++ [⟨emoji, .me⟩] }
      else msg }
  let effs := match st.mainConn with
    | some m =>
        if st.status == ChatMode.CONNECTED
        then [Effect.send m.cid (.reaction emoji (some messageId))] else []
    | none => []
  (st1, effs)

/-- `editMessage` (lines 522-531): replace `text` and set `isEdited` on the
message with the given id, then transmit when connected. -/
def editMessage (messageId : String) (newText : String)
    (st : ChatState) : ChatState × List Effect :=
  let st1 := { st with messages := st.messages.map (localEditStep messageId newText) }
  let effs := match st.mainConn with
    | some m =>
        if st.status == ChatMode.CONNECTED
        then [Effect.send m.cid (.edit_message newText (some messageId))] else []
    | none => []
  (st1, effs)

/-- Candidate selection as the specification words it: records filtered to
`status == waiting` AND `peerId != self`, sorted by ascending timestamp, first
element dialed.  Kept separate from `processSnapshot` (which embeds the
source) so the two selections can be compared. -/
def specSelectedCandidate (myId : String)
    (snapshot : List PresenceState) : Option String :=
  (sortByTimestamp (snapshot.filter fun u =>
      u.status == PresenceStatus.waiting && u.peerId != myId)).head?.map
    (fun u => u.peerId)

/-- A connection sitting open in the main slot. -/
def mainConn0 : DataConnection := ⟨0, "alice", true⟩

/-- A second inbound connection dialed with role `random`. -/
def incoming1 : DataConnection := ⟨1, "bob", false⟩

/-- A session whose main slot holds the open connection `mainConn0`. -/
def stWithOpenMain : ChatState :=
  { emptyState with mainConn := some mainConn0, status := .CONNECTED }

/-- This client's own `waiting` presence record, published first. -/
def selfRec : PresenceState := ⟨"self", .waiting, 1, none⟩

/-- Another participant's `waiting` record, published later. -/
def otherRec : PresenceState := ⟨"other", .waiting, 2, none⟩

/-- A snapshot in which self is the oldest waiter and a non-self waiter
exists. -/
def snapSelfOldest : List PresenceState := [selfRec, otherRec]

/-- The connection returned by `peer.connect` for a matchmaker dial; it never
reaches the open state. -/
def freshConn2 : DataConnection := ⟨2, "other", false⟩

/-- The sync result of a matchmaker dial from the idle lobby state toward the
sole waiter `other`; the returned connection never opens. -/
def halfOpenDial : SyncResult :=
  processSnapshot "self" [⟨"other", .waiting, 1, none⟩] (some freshConn2) emptyState

/-- A stranger text message with no reactions yet. -/
def plainMsg1 : Message :=
  { id := "m1", text := some "hello", type := .text, sender := .stranger,
    timestamp := 0 }

/-- An older stranger text message. -/
def strMsgA : Message :=
  { id := "s1", text := some "a", type := .text, sender := .stranger,
    timestamp := 1 }

/-- A newer stranger text message. -/
def strMsgB : Message :=
  { id := "s2", text := some "b", type := .text, sender := .stranger,
    timestamp := 2 }

/-- A connected main session holding two stranger text messages. -/
def stTwoStranger : ChatState :=
  { emptyState with messages := [strMsgA, strMsgB]
                    mainConn := some mainConn0
                    status := .CONNECTED }

/-- An open direct connection to peer `carol`. -/
def directConnX : DataConnection := ⟨5, "carol", true⟩

/-- A connected session with both a main connection and a direct connection. -/
def stWithDirect : ChatState :=
  { emptyState with mainConn := some mainConn0
                    status := .CONNECTED
                    directConns := [("carol", directConnX)]
                    channelJoined := true }

/-! ### Helper lemmas shared by the claim theorems -/

/-- Refreshing the online-user list leaves the main-open guard unchanged. -/
theorem mainOpen_set_online (st : ChatState) (l : List PresenceState) :
    mainOpen { st with onlineUsers := l } = mainOpen st := rfl

/-- A per-message update that preserves ids keeps the id projection of the
whole list. -/
theorem map_preserves_ids {f : Message → Message}
    (hf : ∀ m, (f m).id = m.id) (l : List Message) :
    (l.map f).map Message.id = l.map Message.id := by
  induction l with
  | nil => rfl
  | cons m rest ih => simp [hf m, ih]

/-- A per-message update that fixes every element of a list is the identity
there. -/
theorem map_fixed_on {f : Message → Message} (l : List Message)
    (hl : ∀ m ∈ l, f m = m) : l.map f = l := by
  induction l with
  | nil => rfl
  | cons m rest ih =>
      simp only [List.map_cons]
      rw [hl m (by simp), ih fun x hx => hl x (by simp [hx])]

/-- The stranger-reaction update is idempotent on each message: a second
identical reaction finds the entry it just appended and leaves the message
unchanged. -/
theorem strangerReactionStep_idem (p m : String) (msg : Message) :
    strangerReactionStep p m (strangerReactionStep p m msg)
      = strangerReactionStep p m msg := by
  unfold strangerReactionStep
  by_cases h : msg.id = m
  · by_cases hd : (msg.reactions.any
        fun r => r.sender == Sender.stranger && r.emoji == p) = true
    · simp [h, hd]
    · simp [h, hd, List.any_append]
  · simp [h]

/-- The stranger-reaction update is idempotent on the whole list. -/
theorem applyStrangerReaction_idem (p m : String) (l : List Message) :
    applyStrangerReaction p m (applyStrangerReaction p m l)
      = applyStrangerReaction p m l := by
  unfold applyStrangerReaction
  induction l with
  | nil => rfl
  | cons a t ih => simp only [List.map_cons, ih, strangerReactionStep_idem]

/-! ### Claim theorems -/

/-- Claim C1, counterexample: with the open connection `mainConn0` already in
the main slot, attaching the distinct connection `incoming1` with role
`random` installs `incoming1` in the slot — replacing the occupant — and
emits no effect at all, in particular no close of the new connection. -/
theorem attach_random_replaces_open_main :
    (attachConnection incoming1 (some .random) none stWithOpenMain).1.mainConn
      = some incoming1
    ∧ incoming1 ≠ mainConn0
    ∧ (attachConnection incoming1 (some .random) none stWithOpenMain).2 = [] := by
  decide

/-- Claim C1, amended: attaching a connection in the main role (metadata
`random`, or no metadata while this side is the matchmaker) always installs
the new connection in the single main slot, replacing any occupant, and never
emits a close of any connection; the slot holds at most one connection because
it is a single optional reference. -/
theorem attach_random_installs_new_conn (conn : DataConnection)
    (metadata : Option ConnType) (myPeerId : Option String) (st : ChatState)
    (h : metadata = some ConnType.random
         ∨ (metadata = none ∧ st.isMatchmaker = true)) :
    (attachConnection conn metadata myPeerId st).1.mainConn = some conn
    ∧ ∀ c, Effect.closeConn c ∉ (attachConnection conn metadata myPeerId st).2 := by
  have hcond : (metadata == some ConnType.random
      || (metadata.isNone && st.isMatchmaker)) = true := by
    rcases h with h | ⟨h1, h2⟩
    · subst h; rfl
    · subst h1; rw [h2]; rfl
  constructor
  · simp [attachConnection, hcond]
  · intro c hc
    simp only [attachConnection, hcond, Bool.true_or, if_true] at hc
    rcases myPeerId with _ | pid
    · simp at hc
    · by_cases hch : st.channelJoined <;> simp [hch] at hc

/-- Witness for the amended C1 theorem at a concrete attach. -/
theorem attach_random_installs_new_conn_witness :
    (attachConnection incoming1 (some ConnType.random) none stWithOpenMain).1.mainConn
      = some incoming1 :=
  (attach_random_installs_new_conn incoming1 (some ConnType.random) none
    stWithOpenMain (Or.inl rfl)).1

/-- Claim C2, counterexample: in the snapshot `snapSelfOldest` the oldest
waiter is self and a younger non-self waiter exists.  The filter of the claim
(status `waiting` and peerId not self) selects `other`, but the handler dials
nobody, because the source filters only by status and then rejects the overall
oldest when it is self.  Moreover with the matchmaker flag set, the handler is
not a complete no-op: it still refreshes the online-user list. -/
theorem snapshot_self_oldest_blocks_dial :
    specSelectedCandidate "self" snapSelfOldest = some "other"
    ∧ (processSnapshot "self" snapSelfOldest (some freshConn2) emptyState).dialed = none
    ∧ (processSnapshot "self" snapSelfOldest (some freshConn2)
        { emptyState with isMatchmaker := true }).state.onlineUsers
        ≠ emptyState.onlineUsers := by
  decide

/-- Claim C3, evaluation at the failing input: after a matchmaker dial whose
connection `freshConn2` never opens, the matchmaker flag is already false (it
was cleared when the connection was attached), so the safety-timeout handler
changes nothing — the half-open connection still occupies the main slot after
the timer fires.  A later snapshot can nevertheless dial again, since the
snapshot guard only blocks on an open main connection. -/
theorem safety_timeout_keeps_half_open_main :
    halfOpenDial.state.mainConn = some freshConn2
    ∧ freshConn2.isOpen = false
    ∧ halfOpenDial.state.isMatchmaker = false
    ∧ onSafetyTimeout halfOpenDial.state = halfOpenDial.state
    ∧ (onSafetyTimeout halfOpenDial.state).mainConn = some freshConn2
    ∧ ((onSafetyTimeout halfOpenDial.state).isMatchmaker
        || mainOpen (onSafetyTimeout halfOpenDial.state)) = false := by
  decide

/-- Claim C5, counterexample: sending the same local reaction twice on the
fresh message `plainMsg1` leaves two identical `(me, emoji)` entries in its
reaction list — the local send path performs no deduplication. -/
theorem local_reaction_appends_duplicate :
    ((sendReaction "m1" "+1"
        (sendReaction "m1" "+1" { emptyState with messages := [plainMsg1] }).1).1.messages.map
      fun m => m.reactions)
      = [[⟨"+1", .me⟩, ⟨"+1", .me⟩]] := by
  decide

/-- Claim C6, counterexample: an inbound edit without a message id on the main
connection rewrites BOTH stranger text messages of `stTwoStranger`, including
the older `strMsgA`, where the claim says only the most recent one changes. -/
theorem edit_no_id_modifies_older_message :
    (handleIncomingData (.edit_message "x" none) mainConn0 "f" 9 stTwoStranger).1.messages
      = [{ strMsgA with text := some "x", isEdited := true },
         { strMsgB with text := some "x", isEdited := true }] := by
  decide

/-- Claim C9: a payload whose type tag is not one of the recognized tags
leaves the whole state unchanged and produces no effect. -/
theorem unknown_tag_is_noop (st : ChatState) (conn : DataConnection)
    (tag freshId : String) (now : Nat) :
    handleIncomingData (.unknown tag) conn freshId now st = (st, []) := rfl

/-- Claim C10: each of `sendMessage`, `sendImage` and `sendAudio` appends one
message with sender `me`, status `sent` and the freshly generated id to the
main list, and transmits nothing when no main connection exists or the mode is
not `CONNECTED` (and, being total functions, they raise no exception). -/
theorem send_ops_append_optimistically (st : ChatState)
    (txt img aud fid : String) (now : Nat) :
    (∃ m, (sendMessage txt fid now st).1.messages = st.messages ++ [m]
       ∧ m.sender = Sender.me ∧ m.status = some MsgStatus.sent
       ∧ m.id = fid ∧ m.type = MessageType.text)
    ∧ (∃ m, (sendImage img fid now st).1.messages = st.messages ++ [m]
       ∧ m.sender = Sender.me ∧ m.status = some MsgStatus.sent
       ∧ m.id = fid ∧ m.type = MessageType.image)
    ∧ (∃ m, (sendAudio aud fid now st).1.messages = st.messages ++ [m]
       ∧ m.sender = Sender.me ∧ m.status = some MsgStatus.sent
       ∧ m.id = fid ∧ m.type = MessageType.audio)
    ∧ (st.mainConn = none ∨ st.status ≠ ChatMode.CONNECTED →
       (sendMessage txt fid now st).2 = []
       ∧ (sendImage img fid now st).2 = []
       ∧ (sendAudio aud fid now st).2 = []) := by
  refine ⟨⟨_, rfl, rfl, rfl, rfl, rfl⟩, ⟨_, rfl, rfl, rfl, rfl, rfl⟩,
    ⟨_, rfl, rfl, rfl, rfl, rfl⟩, ?_⟩
  intro h
  rcases h with h | h
  · simp [sendMessage, sendImage, sendAudio, h]
  · have hb : (st.status == ChatMode.CONNECTED) = false := by
      simpa using h
    rcases hmc : st.mainConn with _ | mc <;>
      simp [sendMessage, sendImage, sendAudio, hmc, hb]

/-- Witness for the C10 theorem: sending with no main connection appends the
optimistic copy and transmits nothing. -/
theorem send_ops_append_optimistically_witness :
    (sendMessage "hey" "id1" 3 emptyState).2 = [] := by
  have h := send_ops_append_optimistically emptyState "hey" "a" "b" "id1" 3
  exact (h.2.2.2 (Or.inl rfl)).1

/-- Claim C4: an inbound `message` payload on the main connection clears both
remote indicators, appends the message constructed from the payload and its
declared content kind, and acknowledges it with a `seen` carrying the message
id on the same connection; on a direct connection it emits an
incoming-direct-message event and leaves the main message list untouched. -/
theorem incoming_message_dispatch (st : ChatState) (conn : DataConnection)
    (payload : String) (dataType : Option MessageType) (mid : Option String)
    (freshId : String) (now : Nat) :
    (isMainConn st conn = true →
       (handleIncomingData (.message payload dataType mid) conn freshId now st).1.partnerTyping = false
       ∧ (handleIncomingData (.message payload dataType mid) conn freshId now st).1.partnerRecording = false
       ∧ (handleIncomingData (.message payload dataType mid) conn freshId now st).1.messages
           = st.messages ++ [mkIncomingMessage payload dataType (mid.getD freshId) now]
       ∧ (handleIncomingData (.message payload dataType mid) conn freshId now st).2
           = [Effect.send conn.cid (.seen (some (mid.getD freshId)))])
    ∧ (isMainConn st conn = false →
       (handleIncomingData (.message payload dataType mid) conn freshId now st).1.incomingDirectMessage
           = some ⟨conn.peer, mkIncomingMessage payload dataType (mid.getD freshId) now⟩
       ∧ (handleIncomingData (.message payload dataType mid) conn freshId now st).1.messages
           = st.messages
       ∧ (handleIncomingData (.message payload dataType mid) conn freshId now st).2 = [])
    ∧ (mkIncomingMessage payload dataType (mid.getD freshId) now).sender = Sender.stranger
    ∧ (mkIncomingMessage payload dataType (mid.getD freshId) now).id = mid.getD freshId
    ∧ (mkIncomingMessage payload dataType (mid.getD freshId) now).type
        = dataType.getD MessageType.text := by
  refine ⟨?_, ?_, rfl, rfl, rfl⟩
  · intro h
    simp [handleIncomingData, h]
  · intro h
    simp [handleIncomingData, h]

/-- Witness for the C4 theorem at a concrete inbound text message on the main
connection. -/
theorem incoming_message_dispatch_witness :
    (handleIncomingData (.message "hi" none none) mainConn0 "f1" 7 stWithOpenMain).1.messages
      = stWithOpenMain.messages ++ [mkIncomingMessage "hi" none "f1" 7] := by
  have h := incoming_message_dispatch stWithOpenMain mainConn0 "hi" none none "f1" 7
  exact (h.1 (by decide)).2.2.1

/-- Claim C6, amended: an inbound `edit_message` without a message id on the
main connection replaces the text and sets `isEdited` on EVERY stranger text
message — not only the most recent one; messages from me or the system and
non-text messages are unchanged. -/
theorem edit_no_id_edits_all_stranger_texts (st : ChatState)
    (conn : DataConnection) (payload freshId : String) (now : Nat)
    (h : isMainConn st conn = true) :
    (handleIncomingData (.edit_message payload none) conn freshId now st).1.messages
      = st.messages.map fun msg =>
          if msg.sender == Sender.stranger && msg.type == MessageType.text
          then { msg with text := some payload, isEdited := true }
          else msg := by
  have hl : applyStrangerEdit payload none st.messages
      = st.messages.map fun msg =>
          if msg.sender == Sender.stranger && msg.type == MessageType.text
          then { msg with text := some payload, isEdited := true }
          else msg := by
    unfold applyStrangerEdit
    apply List.map_congr_left
    intro a _
    simp [strangerEditStep]
  simp [handleIncomingData, h, hl]

/-- Witness for the amended C6 theorem on the two-stranger-message state. -/
theorem edit_no_id_edits_all_stranger_texts_witness :
    (handleIncomingData (.edit_message "x" none) mainConn0 "g" 4 stTwoStranger).1.messages
      = stTwoStranger.messages.map fun msg =>
          if msg.sender == Sender.stranger && msg.type == MessageType.text
          then { msg with text := some "x", isEdited := true }
          else msg := by
  have h := edit_no_id_edits_all_stranger_texts stTwoStranger mainConn0 "x" "g" 4 (by decide)
  exact h

/-- The local edit step never changes a message id. -/
theorem localEditStep_id (mid txt : String) (m : Message) :
    (localEditStep mid txt m).id = m.id := by
  unfold localEditStep; split <;> rfl

/-- The stranger edit step never changes a message id. -/
theorem strangerEditStep_id (txt : String) (o : Option String) (m : Message) :
    (strangerEditStep txt o m).id = m.id := by
  unfold strangerEditStep; split <;> rfl

/-- A message the local edit step actually changes got the new text and the
edited flag. -/
theorem localEditStep_changed (mid txt : String) (m : Message)
    (h : localEditStep mid txt m ≠ m) :
    (localEditStep mid txt m).isEdited = true
    ∧ (localEditStep mid txt m).text = some txt := by
  unfold localEditStep at *
  by_cases hid : m.id = mid
  · simp [hid]
  · simp [hid] at h

/-- A message the stranger edit step actually changes got the new text and
the edited flag. -/
theorem strangerEditStep_changed (txt : String) (o : Option String) (m : Message)
    (h : strangerEditStep txt o m ≠ m) :
    (strangerEditStep txt o m).isEdited = true
    ∧ (strangerEditStep txt o m).text = some txt := by
  unfold strangerEditStep at *
  by_cases hc : (m.sender == Sender.stranger && m.type == MessageType.text
      && (o.isNone || o == some m.id)) = true
  · simp [hc]
  · rw [Bool.not_eq_true] at hc
    simp [hc] at h

/-- Positional characterisation of a per-message map update: the message at
position `i` of the result is the step applied to the original. -/
theorem map_step_changed (txt : String) {f : Message → Message}
    {l : List Message} {i : Nat} {m m' : Message}
    (hid : ∀ x, (f x).id = x.id)
    (hch : ∀ x, f x ≠ x → (f x).isEdited = true ∧ (f x).text = some txt)
    (h1 : l[i]? = some m) (h2 : (l.map f)[i]? = some m')
    (hne : m' ≠ m) : m'.id = m.id ∧ m'.isEdited = true ∧ m'.text = some txt := by
  rw [List.getElem?_map, h1] at h2
  simp only [Option.map_some', Option.some.injEq] at h2
  subst h2
  have hne' : f m ≠ m := hne
  exact ⟨hid m, (hch m hne').1, (hch m hne').2⟩

/-- An edit whose target id occurs nowhere leaves the list untouched (local
edit path). -/
theorem localEdit_unknown_id (mid txt : String) (l : List Message)
    (h : ∀ m ∈ l, m.id ≠ mid) : l.map (localEditStep mid txt) = l := by
  apply map_fixed_on
  intro m hm
  unfold localEditStep
  simp [h m hm]

/-- An edit whose target id occurs nowhere leaves the list untouched
(inbound edit path). -/
theorem strangerEdit_unknown_id (txt mid : String) (l : List Message)
    (h : ∀ m ∈ l, m.id ≠ mid) : applyStrangerEdit txt (some mid) l = l := by
  apply map_fixed_on
  intro m hm
  have hfalse : (some mid == some m.id) = false := by
    simp only [beq_eq_false_iff_ne, ne_eq, Option.some.injEq]
    exact Ne.symm (h m hm)
  simp [strangerEditStep, hfalse]

/-- Claim C7: an edit that carries a message id — whether the local
`editMessage` or the inbound `edit_message` payload — preserves every message
id, gives any message it modifies the new text together with `isEdited=true`
and the same id, and is a no-op on the whole list when the id matches no
message. -/
theorem edit_by_id_keeps_id_and_sets_flag (st : ChatState)
    (conn : DataConnection) (mid txt freshId : String) (now : Nat) :
    ((editMessage mid txt st).1.messages.map Message.id
        = st.messages.map Message.id)
    ∧ (∀ (i : Nat) (m m' : Message), st.messages[i]? = some m →
        (editMessage mid txt st).1.messages[i]? = some m' →
        m' ≠ m → m'.id = m.id ∧ m'.isEdited = true ∧ m'.text = some txt)
    ∧ ((∀ m ∈ st.messages, m.id ≠ mid) →
        (editMessage mid txt st).1.messages = st.messages)
    ∧ ((handleIncomingData (.edit_message txt (some mid)) conn freshId now st).1.messages.map Message.id
        = st.messages.map Message.id)
    ∧ (∀ (i : Nat) (m m' : Message), st.messages[i]? = some m →
        (handleIncomingData (.edit_message txt (some mid)) conn freshId now st).1.messages[i]? = some m' →
        m' ≠ m → m'.id = m.id ∧ m'.isEdited = true ∧ m'.text = some txt)
    ∧ ((∀ m ∈ st.messages, m.id ≠ mid) →
        (handleIncomingData (.edit_message txt (some mid)) conn freshId now st).1.messages = st.messages) := by
  have he : (editMessage mid txt st).1.messages
      = st.messages.map (localEditStep mid txt) := rfl
  by_cases hmain : isMainConn st conn = true
  · have hi : (handleIncomingData (.edit_message txt (some mid)) conn freshId now st).1.messages
        = applyStrangerEdit txt (some mid) st.messages := by
      simp [handleIncomingData, hmain]
    refine ⟨?_, ?_, ?_, ?_, ?_, ?_⟩
    · rw [he]; exact map_preserves_ids (localEditStep_id mid txt) st.messages
    · intro i m m' h1 h2 hne
      rw [he] at h2
      exact map_step_changed txt (localEditStep_id mid txt)
        (localEditStep_changed mid txt) h1 h2 hne
    · intro h; rw [he]; exact localEdit_unknown_id mid txt st.messages h
    · rw [hi]
      exact map_preserves_ids (strangerEditStep_id txt (some mid)) st.messages
    · intro i m m' h1 h2 hne
      rw [hi] at h2
      exact map_step_changed txt (strangerEditStep_id txt (some mid))
        (strangerEditStep_changed txt (some mid)) h1 h2 hne
    · intro h; rw [hi]; exact strangerEdit_unknown_id txt mid st.messages h
  · have hb : isMainConn st conn = false := by simpa using hmain
    have hi : (handleIncomingData (.edit_message txt (some mid)) conn freshId now st).1.messages
        = st.messages := by
      simp [handleIncomingData, hb]
    refine ⟨?_, ?_, ?_, ?_, ?_, ?_⟩
    · rw [he]; exact map_preserves_ids (localEditStep_id mid txt) st.messages
    · intro i m m' h1 h2 hne
      rw [he] at h2
      exact map_step_changed txt (localEditStep_id mid txt)
        (localEditStep_changed mid txt) h1 h2 hne
    · intro h; rw [he]; exact localEdit_unknown_id mid txt st.messages h
    · rw [hi]
    · intro i m m' h1 h2 hne
      rw [hi, h1] at h2
      exact absurd (Option.some.inj h2) hne.symm
    · intro h; exact hi

/-- Witness for the C7 theorem: editing with an id that matches no message of
the two-stranger-message state is a no-op. -/
theorem edit_by_id_keeps_id_and_sets_flag_witness :
    (editMessage "zz" "t" stTwoStranger).1.messages = stTwoStranger.messages := by
  have h := edit_by_id_keeps_id_and_sets_flag stTwoStranger mainConn0 "zz" "t" "f" 0
  exact h.2.2.1 (by decide)

/-- Claim C8: tearing down the main session leaves the direct-connection map
untouched and closes no direct connection (only the main connection's own
object id may be closed), while the close of a non-main connection — via the
transport close handler or an inbound `disconnect` payload — only evicts that
peer from the direct map and changes neither the session mode nor the main
slot. -/
theorem main_teardown_spares_directs (st : ChatState) (conn : DataConnection)
    (freshId : String) (now : Nat) (h : isMainConn st conn = false) :
    ((cleanupMain st).1.directConns = st.directConns)
    ∧ ((cleanupMain st).1.mainConn = none)
    ∧ ((cleanupMain st).1.isMatchmaker = false)
    ∧ ((cleanupMain st).1.timeoutArmed = false)
    ∧ ((cleanupMain st).1.channelJoined = false)
    ∧ (∀ (p : String) (c : DataConnection), (p, c) ∈ st.directConns →
        (∀ mc, st.mainConn = some mc → c.cid ≠ mc.cid) →
        Effect.closeConn c.cid ∉ (cleanupMain st).2)
    ∧ ((onConnClose conn st).status = st.status)
    ∧ ((onConnClose conn st).mainConn = st.mainConn)
    ∧ ((onConnClose conn st).directConns = mapDelete conn.peer st.directConns)
    ∧ ((handleIncomingData .disconnect conn freshId now st).1.status = st.status)
    ∧ ((handleIncomingData .disconnect conn freshId now st).1.mainConn = st.mainConn)
    ∧ ((handleIncomingData .disconnect conn freshId now st).1.directConns
        = mapDelete conn.peer st.directConns) := by
  refine ⟨rfl, rfl, rfl, rfl, rfl, ?_, ?_, ?_, ?_, ?_, ?_, ?_⟩
  · intro p c _ hcid hmem
    unfold cleanupMain at hmem
    rcases hmc : st.mainConn with _ | mc
    · by_cases hch : st.channelJoined <;> simp [hmc, hch] at hmem
    · by_cases hch : st.channelJoined <;> simp [hmc, hch] at hmem <;>
        exact hcid mc hmc hmem
  · simp [onConnClose, h]
  · simp [onConnClose, h]
  · simp [onConnClose, h]
  · simp [handleIncomingData, h]
  · simp [handleIncomingData, h]
  · simp [handleIncomingData, h]

/-- Witness for the C8 theorem: closing the direct connection of
`stWithDirect` leaves the session mode unchanged. -/
theorem main_teardown_spares_directs_witness :
    (onConnClose directConnX stWithDirect).status = stWithDirect.status := by
  have h := main_teardown_spares_directs stWithDirect directConnX "f" 0 (by decide)
  exact h.2.2.2.2.2.2.1

/-- Claim C5, amended: incoming stranger reactions on the main connection are
deduplicated by (sender, emoji) — delivering the same reaction payload twice
leaves the message list exactly as after the first delivery — whereas the
local `sendReaction` path appends unconditionally, so the resulting entry is
always the old list plus one more `me` entry, even when an identical entry is
already present. -/
theorem reaction_dedup_incoming_only (st : ChatState) (conn : DataConnection)
    (p m mid e f1 f2 : String) (n1 n2 : Nat) :
    ((handleIncomingData (.reaction p (some m)) conn f2 n2
        (handleIncomingData (.reaction p (some m)) conn f1 n1 st).1).1.messages
      = (handleIncomingData (.reaction p (some m)) conn f1 n1 st).1.messages)
    ∧ (∀ msg ∈ st.messages, msg.id = mid →
        ({ msg with reactions := msg.reactions ++ [⟨e, .me⟩] } : Message)
          ∈ (sendReaction mid e st).1.messages) := by
  constructor
  · by_cases h : isMainConn st conn = true
    · have hred : handleIncomingData (.reaction p (some m)) conn f1 n1 st
          = ({ st with incomingReaction := some ⟨m, p⟩
                       messages := applyStrangerReaction p m st.messages }, []) := by
        simp [handleIncomingData, h]
      rw [hred]
      have h' : isMainConn
          { st with incomingReaction := some ⟨m, p⟩
                    messages := applyStrangerReaction p m st.messages } conn = true := h
      simp [handleIncomingData, h', applyStrangerReaction_idem]
    · have hb : isMainConn st conn = false := by simpa using h
      have hred : handleIncomingData (.reaction p (some m)) conn f1 n1 st
          = ({ st with incomingReaction := some ⟨m, p⟩ }, []) := by
        simp [handleIncomingData, hb]
      rw [hred]
      have h' : isMainConn { st with incomingReaction := some ⟨m, p⟩ } conn = false := hb
      simp [handleIncomingData, h']
  · intro msg hmem hid
    refine List.mem_map.mpr ⟨msg, hmem, ?_⟩
    simp [hid]

/-- Witness for the amended C5 theorem: the unconditional local append at a
concrete message. -/
theorem reaction_dedup_incoming_only_witness :
    ({ plainMsg1 with reactions := plainMsg1.reactions ++ [⟨"+1", .me⟩] } : Message)
      ∈ (sendReaction "m1" "+1" { emptyState with messages := [plainMsg1] }).1.messages := by
  have h := reaction_dedup_incoming_only { emptyState with messages := [plainMsg1] }
    mainConn0 "p" "m" "m1" "+1" "a" "b" 0 0
  exact h.2 plainMsg1 (by decide) (by decide)

/-- Claim C2, amended: if the matchmaker flag is set or the main connection is
open, the snapshot handler dials nobody and only refreshes the online-user
list; otherwise the records are filtered to `status == waiting` only (self is
NOT excluded by the filter), sorted by ascending timestamp, and the
overall-oldest waiter is dialed exactly when its peer id differs from self —
in particular the handler never dials self — and on a successful dial the
returned connection occupies the main slot, the matchmaker flag has been
cleared again by the attach, and the safety timer is armed. -/
theorem snapshot_selection_behaviour (myId : String)
    (snapshot : List PresenceState) (newConn : Option DataConnection)
    (st : ChatState) :
    ((st.isMatchmaker = true ∨ mainOpen st = true) →
        processSnapshot myId snapshot newConn st
          = ⟨{ st with onlineUsers := snapshot }, none, []⟩)
    ∧ (st.isMatchmaker = false → mainOpen st = false →
        (processSnapshot myId snapshot newConn st).dialed
          = (match (sortByTimestamp (snapshot.filter fun u =>
                u.status == PresenceStatus.waiting)).head? with
             | some w => if w.peerId ≠ myId then some w.peerId else none
             | none => none))
    ∧ ((processSnapshot myId snapshot newConn st).dialed ≠ some myId)
    ∧ (∀ conn, st.isMatchmaker = false → mainOpen st = false →
        newConn = some conn →
        ((processSnapshot myId snapshot newConn st).dialed).isSome = true →
        (processSnapshot myId snapshot newConn st).state.mainConn = some conn
        ∧ (processSnapshot myId snapshot newConn st).state.isMatchmaker = false
        ∧ (processSnapshot myId snapshot newConn st).state.timeoutArmed = true) := by
  refine ⟨?_, ?_, ?_, ?_⟩
  · intro hg
    have hg' : (st.isMatchmaker || mainOpen st) = true := by
      rcases hg with hg | hg <;> simp [hg]
    simp [processSnapshot, hg']
  · intro h1 h2
    simp only [processSnapshot, h1, h2, Bool.or_self, Bool.false_eq_true,
      if_false]
    rcases he : (sortByTimestamp (snapshot.filter fun u =>
        u.status == PresenceStatus.waiting)).head? with _ | w
    · simp [he]
    · simp only [he]
      by_cases hp : w.peerId = myId
      · simp [hp]
      · rcases newConn with _ | conn
        · simp [hp]
        · simp [hp, attachConnection]
  · by_cases hg : (st.isMatchmaker || mainOpen st) = true
    · simp [processSnapshot, hg]
    · have hg' : (st.isMatchmaker || mainOpen st) = false := by
        simpa using hg
      simp only [processSnapshot, hg', Bool.false_eq_true, if_false]
      rcases he : (sortByTimestamp (snapshot.filter fun u =>
          u.status == PresenceStatus.waiting)).head? with _ | w
      · simp [he]
      · simp only [he]
        by_cases hp : w.peerId = myId
        · simp [hp]
        · rcases newConn with _ | conn
          · simp [hp]
          · simp [hp, attachConnection]
  · intro conn h1 h2 hc hsome
    subst hc
    simp only [processSnapshot, h1, h2, Bool.or_self, Bool.false_eq_true,
      if_false] at hsome ⊢
    rcases he : (sortByTimestamp (snapshot.filter fun u =>
        u.status == PresenceStatus.waiting)).head? with _ | w
    · simp [he] at hsome
    · simp only [he] at hsome ⊢
      by_cases hp : w.peerId = myId
      · simp [hp] at hsome
      · simp [hp, attachConnection]

/-- Witness for the amended C2 theorem: from an idle lobby state with a single
non-self waiter, the handler dials that waiter. -/
theorem snapshot_selection_behaviour_witness :
    (processSnapshot "self" [otherRec] (some freshConn2) emptyState).dialed
      = some "other" := by
  have h := snapshot_selection_behaviour "self" [otherRec] (some freshConn2) emptyState
  have h2 := h.2.1 rfl rfl
  rw [h2]
  decide
